import Mathlib

/-!
Verification development for the Hynews news-aggregation pipeline.

The Python sources (`app/services/image_extractor.py`, `app/services/scraper.py`,
`app/services/ittefaq.py`, `app/services/prothom_alo.py`) are shallowly embedded
below.  HTML documents are modelled by the attribute/structure shape that the
code actually inspects (BeautifulSoup/lxml queries become record fields);
optional string attributes are `Option String`; Python exceptions are
`Except String`.
-/

namespace PyStr

/-- Infix test on character lists: some split of `l` has `pat` right after the
first part. -/
def listIsInfixOf (pat : List Char) : List Char → Bool
  | [] => pat.isEmpty
  | c :: cs => pat.isPrefixOf (c :: cs) || listIsInfixOf pat cs

/-- Python `needle in hay` substring test. -/
def pyIn (needle hay : String) : Bool :=
  listIsInfixOf needle.data hay.data

/-- Python `s.lower()` (ASCII case folding, the only case this codebase meets). -/
def lowerStr (s : String) : String :=
  String.mk (s.data.map Char.toLower)

/-- Python `s.strip()` on a character list. -/
def stripChars (l : List Char) : List Char :=
  ((l.dropWhile Char.isWhitespace).reverse.dropWhile Char.isWhitespace).reverse

/-- Python `s.strip()`. -/
def pyStrip (s : String) : String :=
  String.mk (stripChars s.data)

/-- Split a character list at every character satisfying `p`, keeping empty
pieces (the behaviour of Python `s.split(sep)` for a one-character `sep`). -/
def splitPred (p : Char → Bool) : List Char → List (List Char)
  | [] => [[]]
  | c :: cs =>
    let r := splitPred p cs
    if p c then [] :: r
    else
      match r with
      | [] => [[c]]
      | h :: t => (c :: h) :: t

/-- Python `s.split(",")`. -/
def pySplitComma (s : String) : List String :=
  (splitPred (fun c => c == ',') s.data).map String.mk

/-- Python truthiness of an optional string value: present and nonempty. -/
def truthy : Option String → Bool
  | none => false
  | some s => !(s == "")

/-- Python `a or b` on optional string attribute values. -/
def pyOr (a b : Option String) : Option String :=
  if truthy a then a else b

/-- Python `s.startswith(p)`. -/
def pyStartsWith (s p : String) : Bool :=
  p.data.isPrefixOf s.data

/-- Python `s.lstrip("/")`. -/
def lstripSlash (s : String) : String :=
  String.mk (s.data.dropWhile (fun c => c == '/'))

/-- Python `s.split()`: split on whitespace runs, dropping empty pieces. -/
def splitWs (s : String) : List String :=
  (((splitPred Char.isWhitespace s.data).filter (fun t => !t.isEmpty)).map String.mk)

/-- Python `l[0]` on a list of strings: `IndexError` when the list is empty. -/
def pyIndexZero (l : List String) : Except String String :=
  match l with
  | [] => Except.error "list index out of range"
  | x :: _ => Except.ok x

/-- Split a character list at the first occurrence of `"://"`, returning the
characters before it and after it. -/
def breakScheme : List Char → Option (List Char × List Char)
  | [] => none
  | c :: cs =>
    if [':', '/', '/'].isPrefixOf (c :: cs) then some ([], cs.drop 2)
    else
      match breakScheme cs with
      | some (pre, post) => some (c :: pre, post)
      | none => none

/-- The origin `scheme://host` of an absolute URL, as `urllib.parse` computes it
for the bases used by this codebase (scheme, then authority up to the next `/`).
An input with no `"://"` has an empty origin. -/
def originOf (base : String) : String :=
  match breakScheme base.data with
  | none => ""
  | some (scheme, rest) =>
    String.mk (scheme ++ ':' :: '/' :: '/' :: rest.takeWhile (fun c => !(c == '/')))

/-- Model of `urllib.parse.urljoin base p` for a root-relative path `p`
(starting with a single `/`): the base URL's origin followed by `p`.
(Dot-segment normalisation is not exercised by this codebase.) -/
def urljoinRoot (base p : String) : String :=
  originOf base ++ p

/-- Model of `urllib.parse.urljoin base rel` for the href shapes a news
listing page produces: absolute http(s) URLs are kept, protocol-relative URLs
take the https scheme, root-relative paths join the base's origin, and plain
relative segments join a path-less base. -/
def urljoin (base rel : String) : String :=
  if pyStartsWith rel "http://" || pyStartsWith rel "https://" then rel
  else if pyStartsWith rel "//" then "https:" ++ rel
  else if pyStartsWith rel "/" then urljoinRoot base rel
  else urljoinRoot base ("/" ++ rel)

/-- The URL-resolution branch shared by `extract_image_url` (lines 39-46) and
`_extract_url_from_element` (lines 272-279), parametric in the base URL the code
passes to `urljoin`, together with the empty-input guard the call sites place
just before it (`if not src_attr: return ""`). -/
def resolveUrl (base u : String) : String :=
  if u == "" then ""
  else if pyStartsWith u "http" then u
  else if pyStartsWith u "//" then "https:" ++ u
  else if pyStartsWith u "/" then urljoinRoot base u
  else urljoinRoot base ("/" ++ u)

end PyStr

namespace ImageExtractor

def BASE_URL : String := "https://www.thedailystar.net"

/-- The content-image CDN host tested at `image_extractor.py:172`. -/
def contentDomain : String := "tds-images.thedailystar.net"

/-- The site-logo host tested at `image_extractor.py:179` and `:75`. -/
def logoDomain : String := "tds-images-bn.thedailystar.net"

/-- A `<source>`/`<img>` element inside a `<picture>`, reduced to the four
attributes the extractor reads. -/
structure ImgSourceEl where
  srcset : Option String := none
  data_srcset : Option String := none
  src : Option String := none
  data_src : Option String := none
deriving Repr, DecidableEq

/-- A `<picture>` grouping: its `<source>` children and `<img>` children. -/
structure Picture where
  sources : List ImgSourceEl := []
  imgs : List ImgSourceEl := []
deriving Repr, DecidableEq

/-- The `.section-media .lg-gallery` element (primary selector), reduced to its
`data-src` attribute. -/
structure HeroEl where
  data_src : Option String := none
deriving Repr, DecidableEq

/-- A parsed article document, reduced to the three queries
`extract_image_url` performs: the primary hero-gallery element, the list of all
`<picture>` tags, and the `<picture>` matched by the lightbox XPath fallback. -/
structure Doc where
  heroGallery : Option HeroEl := none
  pictures : List Picture := []
  lightbox : Option Picture := none
deriving Repr, DecidableEq

/-- `element.get("srcset") or element.get("data-srcset")` followed by the
`if not srcset_attr: continue` truthiness guard (lines 160-161). -/
def srcsetOf (e : ImgSourceEl) : Option String :=
  let a := PyStr.pyOr e.srcset e.data_srcset
  if PyStr.truthy a then a else none

/-- One iteration of the classification loop of `_is_valid_article_image`
(lines 159-180); the state is `(is_article_image, has_bn_domain,
has_author_image)`. -/
def classifyStep (st : Bool × Bool × Bool) (e : ImgSourceEl) : Bool × Bool × Bool :=
  match srcsetOf e with
  | none => st
  | some s =>
    let l := PyStr.lowerStr s
    if PyStr.pyIn contentDomain l then
      if !PyStr.pyIn "author" l && !PyStr.pyIn "/small_" l then (true, st.2.1, st.2.2)
      else (st.1, st.2.1, true)
    else if PyStr.pyIn logoDomain l then (st.1, true, st.2.2)
    else st

/-- `ImageExtractor._is_valid_article_image`: returns
`(is_article_image, skip_image)`. -/
def is_valid_article_image (p : Picture) : Bool × Bool :=
  let r := (p.sources ++ p.imgs).foldl classifyStep (false, false, false)
  (r.1, r.2.1 || (r.2.2 && !r.1))

/-- `ImageExtractor._get_image_priority`: 0 when some `<source>`'s (truthy)
srcset contains `/big_` (lowercased), else 1. -/
def get_image_priority (p : Picture) : Nat :=
  if p.sources.any (fun s =>
      match srcsetOf s with
      | some v => PyStr.pyIn "/big_" (PyStr.lowerStr v)
      | none => false) then 0 else 1

/-- `ImageExtractor._find_source_tag`: first `<source>` with a truthy
`srcset` or `data-srcset`. -/
def find_source_tag (p : Picture) : Option ImgSourceEl :=
  p.sources.find? (fun s => PyStr.truthy s.srcset || PyStr.truthy s.data_srcset)

/-- `ImageExtractor._find_img_tag`: first `<img>` with a truthy
`srcset` or `data-srcset`. -/
def find_img_tag (p : Picture) : Option ImgSourceEl :=
  p.imgs.find? (fun i => PyStr.truthy i.srcset || PyStr.truthy i.data_srcset)

/-- The candidate-collection loop of `_find_image_with_bs4` (lines 97-112):
a picture is skipped when `skip_image and not is_article_image`, and appended
(with its priority) only when `is_article_image`. -/
def keptCandidates (pictures : List Picture) : List (Nat × Picture) :=
  pictures.filterMap (fun p =>
    let c := is_valid_article_image p
    if c.2 && !c.1 then none
    else if c.1 then some (get_image_priority p, p)
    else none)

/-- Stable insertion for `sortCandidates`: a new element goes after all
already-placed elements whose key is `≤` its own, matching the stable ascending
sort `candidate_pictures.sort(key=lambda x: x[0])`. -/
def insertByPriority (x : Nat × Picture) : List (Nat × Picture) → List (Nat × Picture)
  | [] => [x]
  | y :: ys => if y.1 ≤ x.1 then y :: insertByPriority x ys else x :: y :: ys

/-- The stable ascending sort by priority at line 115. -/
def sortCandidates (cs : List (Nat × Picture)) : List (Nat × Picture) :=
  cs.foldl (fun acc c => insertByPriority c acc) []

/-- The per-candidate body of the processing loop of `_find_image_with_bs4`
(lines 118-135): the candidate's first srcset-bearing `<source>`, else its
first srcset-bearing `<img>`.  (Re-serialising and re-parsing a tag that was
selected for a truthy srcset/data-srcset re-finds that same tag, so the lxml
round trip of lines 121-126/130-135 is the identity here.) -/
def candidateElem (p : Picture) : Option ImgSourceEl :=
  match find_source_tag p with
  | some s => some s
  | none => find_img_tag p

/-- The candidate-processing loop of `_find_image_with_bs4`: the first
candidate (in sorted order) with an extractable element wins. -/
def firstExtractable : List (Nat × Picture) → Option ImgSourceEl
  | [] => none
  | c :: rest =>
    match candidateElem c.2 with
    | some e => some e
    | none => firstExtractable rest

/-- `ImageExtractor._find_image_with_bs4`. -/
def find_image_with_bs4 (pictures : List Picture) : Option ImgSourceEl :=
  if pictures.isEmpty then none
  else firstExtractable (sortCandidates (keptCandidates pictures))

/-- The XPath lightbox fallback (lines 54-66): inside the matched `<picture>`,
prefer a `<source>` whose `srcset`/`data-srcset` attribute *exists* (XPath
attribute test, not Python truthiness), else such an `<img>`. -/
def lightboxElem (lb : Option Picture) : Option ImgSourceEl :=
  match lb with
  | none => none
  | some pic =>
    match pic.sources.find? (fun s => s.srcset.isSome || s.data_srcset.isSome) with
    | some s => some s
    | none => pic.imgs.find? (fun i => i.srcset.isSome || i.data_srcset.isSome)

/-- `ImageExtractor._extract_url_from_element`.  The srcset-splitting branch
can raise `IndexError` (modelled as `Except.error`), exactly as
`src_attr.split(",")[0].strip().split()[0]` can in Python. -/
def extract_url_from_element (e : ImgSourceEl) : Except String String :=
  let srcAttr := [e.srcset, e.data_srcset, e.src, e.data_src].findSome?
    (fun a => if PyStr.truthy a then a else none)
  match srcAttr with
  | none => Except.ok ""
  | some a0 =>
    let a := PyStr.pyStrip a0
    if a == "" then Except.ok ""
    else do
      let firstUrl ←
        if PyStr.pyIn "," a then do
          let chunk := PyStr.pyStrip ((PyStr.pySplitComma a).headD "")
          let w ← PyStr.pyIndexZero (PyStr.splitWs chunk)
          pure (PyStr.pyStrip w)
        else if PyStr.pyIn " " a then do
          let w ← PyStr.pyIndexZero (PyStr.splitWs a)
          pure (PyStr.pyStrip w)
        else pure (PyStr.pyStrip a)
      pure (PyStr.resolveUrl BASE_URL firstUrl)

/-- The primary-selector short-circuit of `extract_image_url` (lines 27-46):
`some r` when the hero-gallery element yields a truthy, nonempty-after-strip
`data-src`, resolved to an absolute URL; `none` when control falls through to
the fallbacks. -/
def primaryResult (doc : Doc) : Option String :=
  match doc.heroGallery with
  | some el =>
    match el.data_src with
    | some raw =>
      if raw == "" then none
      else
        let u := PyStr.pyStrip raw
        if u == "" then none
        else some (PyStr.resolveUrl BASE_URL u)
    | none => none
  | none => none

/-- `ImageExtractor.extract_image_url`. -/
def extract_image_url (doc : Doc) : Except String String :=
  match primaryResult doc with
  | some r => Except.ok r
  | none =>
    let elem :=
      match find_image_with_bs4 doc.pictures with
      | some e => some e
      | none => lightboxElem doc.lightbox
    match elem with
    | none => Except.ok ""
    | some e => do
      let url ← extract_url_from_element e
      if !(url == "") && PyStr.pyIn logoDomain (PyStr.lowerStr url) then pure ""
      else pure url

/-- Spec 4.2, content rule: a size-hinted expression on the content-image
domain carrying neither an author marker nor a small-thumbnail marker. -/
def exprContent (l : String) : Bool :=
  PyStr.pyIn contentDomain l && (!PyStr.pyIn "author" l && !PyStr.pyIn "/small_" l)

/-- Spec 4.2, author rule as the code applies it: a content-domain expression
carrying an author or small-thumbnail marker. -/
def exprAuthor (l : String) : Bool :=
  PyStr.pyIn contentDomain l && (PyStr.pyIn "author" l || PyStr.pyIn "/small_" l)

/-- Spec 4.2, site-logo rule as the code applies it: a site-logo-domain
expression (the code tests it only when the content-domain test fails). -/
def exprLogo (l : String) : Bool :=
  !PyStr.pyIn contentDomain l && PyStr.pyIn logoDomain l

/-- Whether some (truthy) size-hinted expression of the element satisfies the
given rule on its lowercased text. -/
def elFlag (f : String → Bool) (e : ImgSourceEl) : Bool :=
  match srcsetOf e with
  | some s => f (PyStr.lowerStr s)
  | none => false

/-- The candidate contains a valid content-image expression. -/
def hasContentExpr (p : Picture) : Bool :=
  (p.sources ++ p.imgs).any (elFlag exprContent)

/-- The candidate contains an author-thumbnail expression. -/
def hasAuthorExpr (p : Picture) : Bool :=
  (p.sources ++ p.imgs).any (elFlag exprAuthor)

/-- The candidate contains a site-logo expression. -/
def hasLogoExpr (p : Picture) : Bool :=
  (p.sources ++ p.imgs).any (elFlag exprLogo)

end ImageExtractor

namespace Scraper

def BASE_URL : String := "https://www.thedailystar.net"

/-- An `<a>` element matched by `.title a` on the listing page: its `href`
attribute and its `get_text(strip=True)` result. -/
structure Link where
  href : Option String := none
  text : String := ""
deriving Repr, DecidableEq

/-- A discovered `(title, url)` item. -/
structure NewsItem where
  title : String
  url : String
deriving Repr, DecidableEq

/-- One iteration of the link loop of `fetch_news_headings` (lines 43-62),
with state `(seen_urls, news_items)`. -/
def headingStep (st : List String × List NewsItem) (l : Link) : List String × List NewsItem :=
  let href := match l.href with | some h => h | none => ""
  let title := l.text
  if title == "" || href == "" then st
  else
    let full := PyStr.urljoin BASE_URL href
    if st.1.contains full then st
    else (full :: st.1, st.2 ++ [⟨title, full⟩])

/-- `DailyStarScraper.fetch_news_headings`, from the parsed `.title a` link
list to the deduplicated news items (the network fetch and soup construction
are the function's I/O preamble). -/
def fetch_news_headings (links : List Link) : List NewsItem :=
  (links.foldl headingStep ([], [])).2

/-- A parsed article page, reduced to the selector results
`fetch_article_details` reads: `.article-title` text, `.color-iron` text, the
document seen by the image extractor, and the `.clearfix p` paragraph texts. -/
structure ArticlePage where
  articleTitle : Option String := none
  colorIron : Option String := none
  doc : ImageExtractor.Doc := {}
  clearfixParas : List String := []

/-- Outcome of `self.session.get(article_url)` plus parsing: a page, or a
`requests.RequestException` with a message. -/
inductive FetchResult where
  | ok (page : ArticlePage)
  | netErr (msg : String)

/-- Paragraph joining (lines 99-106): strip each paragraph, keep the nonempty
ones, join with a blank line. -/
def joinParas (ps : List String) : String :=
  String.intercalate "\n\n" ((ps.map PyStr.pyStrip).filter (fun s => !(s == "")))

/-- The structured record `fetch_article_details` returns on success. -/
structure DetailRecord where
  heading : String
  date_time : String
  image : String
  news_body_text_full : String
deriving Repr, DecidableEq

/-- `DailyStarScraper.fetch_article_details`: a network failure is re-raised
as `Failed to fetch article: ...` (lines 115-116) and a parse-time exception
(the extractor's IndexError) as `Error parsing article: ...` (lines 117-118) —
both propagate to the caller. -/
def fetch_article_details : FetchResult → Except String DetailRecord
  | .netErr e => Except.error ("Failed to fetch article: " ++ e)
  | .ok page =>
    match ImageExtractor.extract_image_url page.doc with
    | Except.error e => Except.error ("Error parsing article: " ++ e)
    | Except.ok image_url =>
      Except.ok
        { heading := match page.articleTitle with | some t => t | none => ""
          date_time := match page.colorIron with | some t => t | none => ""
          image := image_url
          news_body_text_full := joinParas page.clearfixParas }

/-- One fully assembled output row of `fetch_all_articles_with_details`. -/
structure ArticleOut where
  title : String
  url : String
  heading : String
  date_time : String
  image : String
  news_body_text_full : String
deriving Repr, DecidableEq

/-- Python `if limit: xs = xs[:limit]` (scraper.py lines 137-138, ittefaq.py
lines 79-80): `None` and `0` are falsy, so only a nonzero limit truncates. -/
def pyTruncate (limit : Option Nat) (xs : List α) : List α :=
  match limit with
  | none => xs
  | some k => if k != 0 then xs.take k else xs

/-- The per-item try/except body of `fetch_all_articles_with_details`
(lines 142-163), over an environment giving each URL's fetch outcome. -/
def processItem (env : String → FetchResult) (it : NewsItem) : ArticleOut :=
  match fetch_article_details (env it.url) with
  | Except.ok d =>
    { title := it.title, url := it.url, heading := d.heading,
      date_time := d.date_time, image := d.image,
      news_body_text_full := d.news_body_text_full }
  | Except.error e =>
    { title := it.title, url := it.url, heading := "", date_time := "",
      image := "", news_body_text_full := "Error fetching article: " ++ e }

/-- `DailyStarScraper.fetch_all_articles_with_details`, over the discovered
items and the per-URL fetch outcomes. -/
def fetch_all_articles_with_details (env : String → FetchResult)
    (news_items : List NewsItem) (limit : Option Nat) : List ArticleOut :=
  (pyTruncate limit news_items).map (processItem env)

end Scraper

namespace Ittefaq

def IMAGE_CDN_BASE : String := "https://cdn.ittefaqbd.com/contents/cache/images"

def image_dimensions : String := "1100x618x1"

/-- Outcome of `json.loads` on a nonempty `data-ari` attribute value. -/
inductive AriData where
  | malformed
  | parsed (path : Option String)
deriving Repr, DecidableEq

/-- A `div.each` news container, reduced to the selector results `_parse_html`
and `_extract_image` read.  `titleElem` is the `h2.title > a` element as
(stripped text, href attribute); `timeElem` is the `span.time` element as
(`data-published` attribute, stripped text); `ariAttr` is the
`span[data-ari]` element: `none` = no such span, `some none` = empty attribute
value, `some (some d)` = the JSON parse outcome of a nonempty value. -/
structure ItDiv where
  titleElem : Option (String × Option String) := none
  summaryText : Option String := none
  categoryText : Option String := none
  timeElem : Option (Option String × String) := none
  ariAttr : Option (Option AriData) := none
deriving Repr, DecidableEq

/-- `IttefaqClient._extract_image`. -/
def extract_image (div : ItDiv) : String :=
  match div.ariAttr with
  | none => ""
  | some none => ""
  | some (some AriData.malformed) => ""
  | some (some (AriData.parsed pathOpt)) =>
    let path := match pathOpt with | some p => p | none => ""
    if path == "" then ""
    else IMAGE_CDN_BASE ++ "/" ++ image_dimensions ++ "/uploads/" ++ PyStr.lstripSlash path

/-- The record `IttefaqNewsItem` of `app/models/ittefaq.py`. -/
structure IttefaqNewsItem where
  title : String
  link : String
  image : String
  summary : String
  category : String
  time : String
  news_body_text_full : String
deriving Repr, DecidableEq

/-- `IttefaqClient._parse_html`, over the parsed `div.each` list (the
per-item try/except never fires in this total model, so it is the loop body).
An item is appended exactly when its title is nonempty (line 139). -/
def parse_html (divs : List ItDiv) : List IttefaqNewsItem :=
  divs.filterMap (fun div =>
    let title := match div.titleElem with | some t => t.1 | none => ""
    let link0 := match div.titleElem with
      | some t => (match t.2 with | some h => h | none => "")
      | none => ""
    let link := if PyStr.pyStartsWith link0 "//" then "https:" ++ link0 else link0
    let summary := match div.summaryText with | some s => s | none => ""
    let category := match div.categoryText with | some c => c | none => ""
    let time := match div.timeElem with
      | none => ""
      | some te =>
        match PyStr.pyOr te.1 (some te.2) with
        | some v => v
        | none => ""
    let image := extract_image div
    if title == "" then none
    else some { title := title, link := link, image := image, summary := summary,
                category := category, time := time, news_body_text_full := "" })

end Ittefaq

namespace ProthomAlo

/-- Days since 1970-01-01 to a proleptic-Gregorian civil date `(y, m, d)`, as
Python `datetime.fromtimestamp(..., tz=timezone.utc)` computes it. -/
def civilFromDays (z0 : Int) : Int × Nat × Nat :=
  let z := z0 + 719468
  let era := z.ediv 146097
  let doe := (z - era * 146097).toNat
  let yoe := (doe - doe / 1460 + doe / 36524 - doe / 146096) / 365
  let doy := doe - (365 * yoe + yoe / 4 - yoe / 100)
  let mp := (5 * doy + 2) / 153
  let d := doy - (153 * mp + 2) / 5 + 1
  let m := if mp < 10 then mp + 3 else mp - 9
  let y := (yoe : Int) + era * 400 + (if m ≤ 2 then 1 else 0)
  (y, m, d)

/-- Left-pad a numeral to two digits. -/
def pad2 (n : Nat) : String :=
  if n < 10 then "0" ++ toString n else toString n

/-- Left-pad a year to four digits (the upstream epoch values land in years
1970-9999, the range `datetime.isoformat` prints as four digits). -/
def pad4 (n : Nat) : String :=
  if n < 10 then "000" ++ toString n
  else if n < 100 then "00" ++ toString n
  else if n < 1000 then "0" ++ toString n
  else toString n

/-- Left-pad a microsecond count to six digits. -/
def pad6 (n : Nat) : String :=
  if n < 10 then "00000" ++ toString n
  else if n < 100 then "0000" ++ toString n
  else if n < 1000 then "000" ++ toString n
  else if n < 10000 then "00" ++ toString n
  else if n < 100000 then "0" ++ toString n
  else toString n

/-- Seconds-of-day to `HH:MM:SS`. -/
def timeOfDay (sod : Nat) : String :=
  pad2 (sod / 3600) ++ ":" ++ pad2 (sod % 3600 / 60) ++ ":" ++ pad2 (sod % 60)

/-- The date-time part of `datetime.fromtimestamp(sec, tz=timezone.utc)
.isoformat()` over a microsecond-precise epoch value: date, `T`, time,
optional `.ffffff`. -/
def isoUTCBody (totalMicro : Int) : String :=
  let sec := totalMicro.ediv 1000000
  let micro := (totalMicro.emod 1000000).toNat
  let day := sec.ediv 86400
  let sod := (sec.emod 86400).toNat
  let ymd := civilFromDays day
  let datePart := pad4 ymd.1.toNat ++ "-" ++ pad2 ymd.2.1 ++ "-" ++ pad2 ymd.2.2
  let frac := if micro == 0 then "" else "." ++ pad6 micro
  datePart ++ "T" ++ timeOfDay sod ++ frac

/-- The full rendering, with the trailing `+00:00` of `isoformat()` already
replaced by `Z` as line 94 does. -/
def isoUTC (totalMicro : Int) : String :=
  isoUTCBody totalMicro ++ "Z"

/-- `ProthomAloClient._format_publish_time`: a numeric input (modelled as an
integer count of epoch milliseconds, for which `float(raw)/1000.0` is exact to
the microsecond) is rendered as UTC ISO-8601; any non-numeric input yields the
empty string. -/
def format_publish_time : Option Int → String
  | none => ""
  | some ms => isoUTC (ms * 1000)

end ProthomAlo

/-! Concrete documents and items for the counterexample and witness theorems. -/

/-- A document whose hero-gallery short-circuit carries a site-logo URL. -/
def C1doc : ImageExtractor.Doc :=
  { heroGallery := some { data_src := some "https://tds-images-bn.thedailystar.net/logo.jpg" } }

/-- A single valid content-image candidate. -/
def C1wpic : ImageExtractor.Picture :=
  { sources := [{ srcset := some "https://tds-images.thedailystar.net/photo.jpg 600w" }] }

def C1wdoc : ImageExtractor.Doc := { pictures := [C1wpic] }

/-- A candidate with a valid content expression, an author-thumbnail
expression, and a site-logo expression. -/
def C2pic : ImageExtractor.Picture :=
  { sources := [ { srcset := some "https://tds-images.thedailystar.net/hero.jpg 600w" },
                 { srcset := some "https://tds-images.thedailystar.net/authors/small_face.jpg" },
                 { srcset := some "https://tds-images-bn.thedailystar.net/logo.png" } ] }

/-- A candidate with a valid content expression and an author-thumbnail
expression, but no site-logo expression. -/
def C2wpic : ImageExtractor.Picture :=
  { sources := [ { srcset := some "https://tds-images.thedailystar.net/hero.jpg 600w" },
                 { srcset := some "https://tds-images.thedailystar.net/authors/small_face.jpg" } ] }

/-- A site-logo source element listed before the big content source of its
candidate. -/
def C3bnEl : ImageExtractor.ImgSourceEl :=
  { srcset := some "https://tds-images-bn.thedailystar.net/logo.png 100w" }

def C3bigPic : ImageExtractor.Picture :=
  { sources := [ C3bnEl,
                 { srcset := some "https://tds-images.thedailystar.net/big_hero.jpg 800w" } ] }

def C3otherPic : ImageExtractor.Picture :=
  { sources := [ { srcset := some "https://tds-images.thedailystar.net/side.jpg 800w" } ] }

def C3wel : ImageExtractor.ImgSourceEl :=
  { srcset := some "https://tds-images.thedailystar.net/big_a.jpg 800w" }

def C3wbig : ImageExtractor.Picture := { sources := [C3wel] }

def C3wother : ImageExtractor.Picture :=
  { sources := [ { srcset := some "https://tds-images.thedailystar.net/b.jpg 700w" } ] }

/-- A candidate that is neither a valid article image nor skip-worthy. -/
def C4pic : ImageExtractor.Picture :=
  { sources := [ { srcset := some "https://example.com/img.jpg 600w" } ] }

def C5env : String → Scraper.FetchResult := fun _ => Scraper.FetchResult.netErr "timeout"

def C5item : Scraper.NewsItem := { title := "a title", url := "https://www.thedailystar.net/a" }

def C6env : String → Scraper.FetchResult := fun _ => Scraper.FetchResult.netErr "refused"

def C6item : Scraper.NewsItem := { title := "b title", url := "https://www.thedailystar.net/b" }

/-- Two listing divs resolving to the same URL. -/
def C7dupDiv : Ittefaq.ItDiv := { titleElem := some ("T", some "//www.ittefaq.com.bd/x") }

/-- A listing div with a title but no href. -/
def C7emptyLinkDiv : Ittefaq.ItDiv := { titleElem := some ("S", none) }

def C7wlinks : List Scraper.Link :=
  [ { href := some "/x", text := "A" }, { href := some "/x", text := "B" } ]

def C8item : Scraper.NewsItem := { title := "t", url := "u" }

def C8env : String → Scraper.FetchResult := fun _ => Scraper.FetchResult.netErr "boom"

/-! Helper lemmas. -/

/-- The classification fold accumulates exactly the three per-expression
flags: some content expression, some logo expression, some author expression. -/
theorem classify_foldl (l : List ImageExtractor.ImgSourceEl) (a b c : Bool) :
    l.foldl ImageExtractor.classifyStep (a, b, c) =
      (a || l.any (ImageExtractor.elFlag ImageExtractor.exprContent),
       b || l.any (ImageExtractor.elFlag ImageExtractor.exprLogo),
       c || l.any (ImageExtractor.elFlag ImageExtractor.exprAuthor)) := by
  induction l generalizing a b c with
  | nil => simp
  | cons e t ih =>
    simp only [List.foldl_cons, List.any_cons]
    rw [ih]
    cases he : ImageExtractor.srcsetOf e with
    | none =>
      simp [ImageExtractor.classifyStep, ImageExtractor.elFlag, he]
    | some s =>
      cases hc : PyStr.pyIn ImageExtractor.contentDomain (PyStr.lowerStr s) with
      | true =>
        cases hx : PyStr.pyIn "author" (PyStr.lowerStr s) with
        | true =>
          simp [ImageExtractor.classifyStep, ImageExtractor.elFlag,
            ImageExtractor.exprContent, ImageExtractor.exprAuthor,
            ImageExtractor.exprLogo, he, hc, hx, Bool.or_assoc, Bool.or_comm,
            Bool.or_left_comm]
        | false =>
          cases hy : PyStr.pyIn "/small_" (PyStr.lowerStr s) with
          | true =>
            simp [ImageExtractor.classifyStep, ImageExtractor.elFlag,
              ImageExtractor.exprContent, ImageExtractor.exprAuthor,
              ImageExtractor.exprLogo, he, hc, hx, hy, Bool.or_assoc,
              Bool.or_comm, Bool.or_left_comm]
          | false =>
            simp [ImageExtractor.classifyStep, ImageExtractor.elFlag,
              ImageExtractor.exprContent, ImageExtractor.exprAuthor,
              ImageExtractor.exprLogo, he, hc, hx, hy, Bool.or_assoc,
              Bool.or_comm, Bool.or_left_comm]
      | false =>
        cases hl : PyStr.pyIn ImageExtractor.logoDomain (PyStr.lowerStr s) with
        | true =>
          simp [ImageExtractor.classifyStep, ImageExtractor.elFlag,
            ImageExtractor.exprContent, ImageExtractor.exprAuthor,
            ImageExtractor.exprLogo, he, hc, hl, Bool.or_assoc, Bool.or_comm,
            Bool.or_left_comm]
        | false =>
          simp [ImageExtractor.classifyStep, ImageExtractor.elFlag,
            ImageExtractor.exprContent, ImageExtractor.exprAuthor,
            ImageExtractor.exprLogo, he, hc, hl]

/-- The classifier's result, expressed through the three candidate flags. -/
theorem is_valid_flags (p : ImageExtractor.Picture) :
    ImageExtractor.is_valid_article_image p =
      (ImageExtractor.hasContentExpr p,
       ImageExtractor.hasLogoExpr p ||
         (ImageExtractor.hasAuthorExpr p && !ImageExtractor.hasContentExpr p)) := by
  unfold ImageExtractor.is_valid_article_image ImageExtractor.hasContentExpr
    ImageExtractor.hasLogoExpr ImageExtractor.hasAuthorExpr
  rw [classify_foldl]
  simp

/-- The two-step keep test of the candidate loop collapses to the validity
test alone. -/
theorem kept_fun_eq (q : ImageExtractor.Picture) :
    (if ((ImageExtractor.is_valid_article_image q).2 &&
          !(ImageExtractor.is_valid_article_image q).1) = true then none
     else if (ImageExtractor.is_valid_article_image q).1 = true then
       some (ImageExtractor.get_image_priority q, q)
     else none) =
      if (ImageExtractor.is_valid_article_image q).1 = true then
        some (ImageExtractor.get_image_priority q, q)
      else none := by
  cases h1 : (ImageExtractor.is_valid_article_image q).1 <;>
    cases h2 : (ImageExtractor.is_valid_article_image q).2 <;> simp [h1, h2]

/-- `filterMap` of a guarded `some` is `map` after `filter`. -/
theorem filterMap_if_eq_map_filter {α β : Type} (f : α → β) (pr : α → Bool)
    (l : List α) :
    l.filterMap (fun q => if pr q = true then some (f q) else none) =
      (l.filter pr).map f := by
  induction l with
  | nil => rfl
  | cons x t ih =>
    rw [List.filterMap_cons, List.filter_cons]
    cases h : pr x <;> simp [h, ih]

/-- The candidate-collection loop keeps exactly the valid candidates, in
document order, paired with their priorities. -/
theorem keptCandidates_filter (ps : List ImageExtractor.Picture) :
    ImageExtractor.keptCandidates ps =
      (ps.filter (fun p => (ImageExtractor.is_valid_article_image p).1)).map
        (fun p => (ImageExtractor.get_image_priority p, p)) := by
  have h : ImageExtractor.keptCandidates ps =
      ps.filterMap (fun q =>
        if (ImageExtractor.is_valid_article_image q).1 = true then
          some (ImageExtractor.get_image_priority q, q)
        else none) := by
    simp only [ImageExtractor.keptCandidates, kept_fun_eq]
  rw [h, filterMap_if_eq_map_filter]

/-! Claim C2. -/

/-- C2: the claim's universal "a candidate containing both a valid
content-image expression and an author-thumbnail expression has
`shouldSkip = false`" fails when the candidate also contains a site-logo
expression: `C2pic` has both expressions, yet its `skip_image` is `true`
(it is nevertheless kept, with priority 1). -/
theorem C2_counterexample :
    ImageExtractor.hasContentExpr C2pic = true ∧
    ImageExtractor.hasAuthorExpr C2pic = true ∧
    (ImageExtractor.is_valid_article_image C2pic).2 = true ∧
    ImageExtractor.keptCandidates [C2pic] = [(1, C2pic)] :=
  ⟨rfl, rfl, rfl, rfl⟩

/-- C2 (amended): the classifier computes
`shouldSkip = siteLogo OR (authorOnly AND NOT isValidArticleImage)`; a
candidate containing both a valid content-image expression and an
author-thumbnail expression has `shouldSkip = false` provided it carries no
site-logo expression, and any candidate with a valid content-image expression
is kept by the selector (skip never discards a valid candidate). -/
theorem C2_amended :
    (∀ p, ImageExtractor.is_valid_article_image p =
      (ImageExtractor.hasContentExpr p,
       ImageExtractor.hasLogoExpr p ||
         (ImageExtractor.hasAuthorExpr p && !ImageExtractor.hasContentExpr p))) ∧
    (∀ p, ImageExtractor.hasContentExpr p = true →
      ImageExtractor.hasLogoExpr p = false →
      (ImageExtractor.is_valid_article_image p).2 = false) ∧
    (∀ ps p, p ∈ ps → ImageExtractor.hasContentExpr p = true →
      (ImageExtractor.get_image_priority p, p) ∈ ImageExtractor.keptCandidates ps) := by
  refine ⟨is_valid_flags, ?_, ?_⟩
  · intro p hc hl
    rw [is_valid_flags p]
    simp [hc, hl]
  · intro ps p hp hc
    rw [keptCandidates_filter]
    have h1 : (ImageExtractor.is_valid_article_image p).1 = true := by
      rw [is_valid_flags p]; exact hc
    exact List.mem_map.mpr ⟨p, List.mem_filter.mpr ⟨hp, h1⟩, rfl⟩

/-- Witness for C2 (amended) at the logo-free candidate `C2wpic`. -/
theorem C2_amended_witness :
    (ImageExtractor.is_valid_article_image C2wpic).2 = false ∧
    (ImageExtractor.get_image_priority C2wpic, C2wpic) ∈
      ImageExtractor.keptCandidates [C2wpic] :=
  ⟨C2_amended.2.1 C2wpic rfl rfl,
   C2_amended.2.2 [C2wpic] C2wpic (List.mem_singleton.mpr rfl) rfl⟩

/-! Claim C4. -/

/-- C4: the claim "every candidate other than those with
`shouldSkip = true` and `isValidArticleImage = false` is kept" fails on a
candidate that is neither valid nor skip-worthy: `C4pic` classifies as
`(false, false)` yet the candidate list is empty. -/
theorem C4_counterexample :
    ImageExtractor.is_valid_article_image C4pic = (false, false) ∧
    ImageExtractor.keptCandidates [C4pic] = [] :=
  ⟨rfl, rfl⟩

/-- C4 (amended): a classified candidate is kept iff `isValidArticleImage` is
true — the loop first drops candidates with `shouldSkip = true` and
`isValidArticleImage = false`, then appends only valid ones, so the kept list
is exactly the valid candidates in document order with their priorities. -/
theorem C4_amended (ps : List ImageExtractor.Picture) :
    ImageExtractor.keptCandidates ps =
      (ps.filter (fun p => (ImageExtractor.is_valid_article_image p).1)).map
        (fun p => (ImageExtractor.get_image_priority p, p)) :=
  keptCandidates_filter ps

/-! Sorting lemmas. -/

/-- Inserting past elements whose key is not larger appends at the end. -/
theorem insertByPriority_all_le (x : Nat × ImageExtractor.Picture)
    (l : List (Nat × ImageExtractor.Picture)) (h : ∀ y ∈ l, y.1 ≤ x.1) :
    ImageExtractor.insertByPriority x l = l ++ [x] := by
  induction l with
  | nil => rfl
  | cons y t ih =>
    simp only [ImageExtractor.insertByPriority]
    rw [if_pos (h y (List.mem_cons_self y t))]
    rw [ih (fun z hz => h z (List.mem_cons_of_mem y hz))]
    rfl

/-- Inserting a key-0 element between a key-0 block and a nonzero-key block
places it at the end of the zero block. -/
theorem insertByPriority_zero_split (x : Nat × ImageExtractor.Picture)
    (hx : x.1 = 0) (zs os : List (Nat × ImageExtractor.Picture))
    (hz : ∀ y ∈ zs, y.1 = 0) (ho : ∀ y ∈ os, y.1 ≠ 0) :
    ImageExtractor.insertByPriority x (zs ++ os) = zs ++ x :: os := by
  induction zs with
  | nil =>
    cases os with
    | nil => rfl
    | cons o t =>
      simp only [List.nil_append, ImageExtractor.insertByPriority]
      rw [if_neg]
      rw [hx]
      exact fun hle => ho o (List.mem_cons_self o t) (Nat.le_zero.mp hle)
  | cons z t ih =>
    simp only [List.cons_append, ImageExtractor.insertByPriority]
    rw [if_pos]
    · simp only [List.append_eq]
      rw [ih (fun y hy => hz y (List.mem_cons_of_mem z hy))]
    · rw [hz z (List.mem_cons_self z t), hx]

/-- The stable insertion sort on 0/1 keys is exactly the partition into the
key-0 block followed by the key-1 block, each in document order. -/
theorem sortCandidates_partition_aux (cs : List (Nat × ImageExtractor.Picture)) :
    ∀ zs os : List (Nat × ImageExtractor.Picture),
      (∀ y ∈ zs, y.1 = 0) → (∀ y ∈ os, y.1 = 1) →
      (∀ y ∈ cs, y.1 = 0 ∨ y.1 = 1) →
      cs.foldl (fun acc c => ImageExtractor.insertByPriority c acc) (zs ++ os) =
        (zs ++ cs.filter (fun c => c.1 == 0)) ++
          (os ++ cs.filter (fun c => !(c.1 == 0))) := by
  induction cs with
  | nil => intro zs os _ _ _; simp
  | cons c t ih =>
    intro zs os hz ho hcs
    rcases hcs c (List.mem_cons_self c t) with h0 | h1
    · rw [List.foldl_cons,
        insertByPriority_zero_split c h0 zs os hz
          (fun y hy => by rw [ho y hy]; exact Nat.one_ne_zero)]
      have hsplit : zs ++ c :: os = (zs ++ [c]) ++ os := by simp
      rw [hsplit,
        ih (zs ++ [c]) os
          (by
            intro y hy
            rcases List.mem_append.mp hy with hmem | hmem
            · exact hz y hmem
            · rw [List.mem_singleton.mp hmem]; exact h0)
          ho (fun y hy => hcs y (List.mem_cons_of_mem c hy))]
      rw [List.filter_cons, List.filter_cons]
      have hc0 : (c.1 == 0) = true := by rw [h0]; rfl
      simp [hc0]
    · rw [List.foldl_cons,
        insertByPriority_all_le c (zs ++ os)
          (by
            intro y hy
            rcases List.mem_append.mp hy with hmem | hmem
            · rw [hz y hmem, h1]; exact Nat.zero_le 1
            · rw [ho y hmem, h1])]
      have hsplit : (zs ++ os) ++ [c] = zs ++ (os ++ [c]) := by simp
      rw [hsplit,
        ih zs (os ++ [c])
          hz
          (by
            intro y hy
            rcases List.mem_append.mp hy with hmem | hmem
            · exact ho y hmem
            · rw [List.mem_singleton.mp hmem]; exact h1)
          (fun y hy => hcs y (List.mem_cons_of_mem c hy))]
      rw [List.filter_cons, List.filter_cons]
      have hc1 : (c.1 == 0) = false := by rw [h1]; rfl
      simp [hc1]

/-- `sortCandidates` on 0/1 keys is the stable partition. -/
theorem sortCandidates_partition (cs : List (Nat × ImageExtractor.Picture))
    (h : ∀ y ∈ cs, y.1 = 0 ∨ y.1 = 1) :
    ImageExtractor.sortCandidates cs =
      cs.filter (fun c => c.1 == 0) ++ cs.filter (fun c => !(c.1 == 0)) := by
  have := sortCandidates_partition_aux cs [] [] (by intro y hy; cases hy)
    (by intro y hy; cases hy) h
  simpa [ImageExtractor.sortCandidates] using this

/-- Every priority the code computes is 0 or 1. -/
theorem get_image_priority_cases (p : ImageExtractor.Picture) :
    ImageExtractor.get_image_priority p = 0 ∨ ImageExtractor.get_image_priority p = 1 := by
  unfold ImageExtractor.get_image_priority
  split
  · exact Or.inl rfl
  · exact Or.inr rfl

/-- When the primary selector falls through and the candidate scan yields an
element whose extraction succeeds with a non-site-logo URL, the extractor
returns that URL. -/
theorem extract_via_bs4 (pics : List ImageExtractor.Picture)
    (lb : Option ImageExtractor.Picture) (e : ImageExtractor.ImgSourceEl) (u : String)
    (hfb : ImageExtractor.find_image_with_bs4 pics = some e)
    (hu : ImageExtractor.extract_url_from_element e = Except.ok u)
    (hbn : PyStr.pyIn ImageExtractor.logoDomain (PyStr.lowerStr u) = false) :
    ImageExtractor.extract_image_url
      { heroGallery := none, pictures := pics, lightbox := lb } = Except.ok u := by
  unfold ImageExtractor.extract_image_url
  have hp : ImageExtractor.primaryResult
      { heroGallery := none, pictures := pics, lightbox := lb } = none := rfl
  rw [hp]
  simp only [hfb, hu, hbn, Except.bind, Bind.bind, Bool.and_false, Bool.false_eq_true,
    if_false]
  cases hce : (u == "") <;> simp [hce, pure, Except.pure]

/-- In a two-candidate document with one priority-0 and one priority-1 valid
candidate, the scan selects the priority-0 candidate's element in either
document order. -/
theorem find_bs4_two (pbig pother : ImageExtractor.Picture)
    (e : ImageExtractor.ImgSourceEl)
    (hvb : (ImageExtractor.is_valid_article_image pbig).1 = true)
    (hvo : (ImageExtractor.is_valid_article_image pother).1 = true)
    (hpb : ImageExtractor.get_image_priority pbig = 0)
    (hpo : ImageExtractor.get_image_priority pother = 1)
    (he : ImageExtractor.candidateElem pbig = some e) :
    ImageExtractor.find_image_with_bs4 [pbig, pother] = some e ∧
    ImageExtractor.find_image_with_bs4 [pother, pbig] = some e := by
  have hk1 : ImageExtractor.keptCandidates [pbig, pother] = [(0, pbig), (1, pother)] := by
    rw [keptCandidates_filter]
    simp [hvb, hvo, hpb, hpo]
  have hk2 : ImageExtractor.keptCandidates [pother, pbig] = [(1, pother), (0, pbig)] := by
    rw [keptCandidates_filter]
    simp [hvb, hvo, hpb, hpo]
  have hs1 : ImageExtractor.sortCandidates [(0, pbig), (1, pother)] =
      [(0, pbig), (1, pother)] := by
    rw [sortCandidates_partition]
    · simp
    · intro y hy
      rcases List.mem_cons.mp hy with h | h
      · rw [h]; exact Or.inl rfl
      · rw [List.mem_singleton.mp h]; exact Or.inr rfl
  have hs2 : ImageExtractor.sortCandidates [(1, pother), (0, pbig)] =
      [(0, pbig), (1, pother)] := by
    rw [sortCandidates_partition]
    · simp
    · intro y hy
      rcases List.mem_cons.mp hy with h | h
      · rw [h]; exact Or.inr rfl
      · rw [List.mem_singleton.mp h]; exact Or.inl rfl
  have hfe : ImageExtractor.firstExtractable [(0, pbig), (1, pother)] = some e := by
    simp [ImageExtractor.firstExtractable, he]
  constructor
  · simp [ImageExtractor.find_image_with_bs4, hk1, hs1, hfe]
  · simp [ImageExtractor.find_image_with_bs4, hk2, hs2, hfe]

/-! Claim C3. -/

/-- C3: the claim fails when the large-marker candidate's first
srcset-bearing source lies on the site-logo domain: in `C3bigPic` (valid,
priority 0) next to `C3otherPic` (valid, priority 1), the URL extracted from
the large-marker candidate is the site-logo URL, and the selector returns the
empty string instead of that URL. -/
theorem C3_counterexample :
    (ImageExtractor.is_valid_article_image C3bigPic).1 = true ∧
    (ImageExtractor.is_valid_article_image C3otherPic).1 = true ∧
    ImageExtractor.get_image_priority C3bigPic = 0 ∧
    ImageExtractor.get_image_priority C3otherPic = 1 ∧
    ImageExtractor.candidateElem C3bigPic = some C3bnEl ∧
    ImageExtractor.extract_url_from_element C3bnEl =
      Except.ok "https://tds-images-bn.thedailystar.net/logo.png" ∧
    ImageExtractor.extract_image_url
        { heroGallery := none, pictures := [C3bigPic, C3otherPic], lightbox := none } =
      Except.ok "" :=
  ⟨rfl, rfl, rfl, rfl, rfl, rfl, rfl⟩

/-- C3 (amended): in a document whose two kept valid candidates are one
priority-0 (large/big marker) and one priority-1 candidate, the selector
returns the URL extracted from the large-marker candidate in both document
orders, provided that extraction succeeds and its URL is not on the site-logo
domain (otherwise the post-scan domain filter, or the raised IndexError,
intervenes); and the sort of kept candidates is stable: on the 0/1 priority
keys it is exactly the priority-0 block followed by the priority-1 block,
each in document order. -/
theorem C3_amended :
    (∀ (pbig pother : ImageExtractor.Picture) (lb : Option ImageExtractor.Picture)
        (e : ImageExtractor.ImgSourceEl) (u : String),
      (ImageExtractor.is_valid_article_image pbig).1 = true →
      (ImageExtractor.is_valid_article_image pother).1 = true →
      ImageExtractor.get_image_priority pbig = 0 →
      ImageExtractor.get_image_priority pother = 1 →
      ImageExtractor.candidateElem pbig = some e →
      ImageExtractor.extract_url_from_element e = Except.ok u →
      PyStr.pyIn ImageExtractor.logoDomain (PyStr.lowerStr u) = false →
      ImageExtractor.extract_image_url
          { heroGallery := none, pictures := [pbig, pother], lightbox := lb } =
        Except.ok u ∧
      ImageExtractor.extract_image_url
          { heroGallery := none, pictures := [pother, pbig], lightbox := lb } =
        Except.ok u) ∧
    (∀ cs : List (Nat × ImageExtractor.Picture),
      (∀ y ∈ cs, y.1 = 0 ∨ y.1 = 1) →
      ImageExtractor.sortCandidates cs =
        cs.filter (fun c => c.1 == 0) ++ cs.filter (fun c => !(c.1 == 0))) := by
  constructor
  · intro pbig pother lb e u hvb hvo hpb hpo he hu hbn
    obtain ⟨h1, h2⟩ := find_bs4_two pbig pother e hvb hvo hpb hpo he
    exact ⟨extract_via_bs4 [pbig, pother] lb e u h1 hu hbn,
           extract_via_bs4 [pother, pbig] lb e u h2 hu hbn⟩
  · exact sortCandidates_partition

/-- Witness for C3 (amended) at a concrete big/non-big candidate pair, plus a
concrete equal-priority stable-sort instance. -/
theorem C3_amended_witness :
    (ImageExtractor.extract_image_url
        { heroGallery := none, pictures := [C3wbig, C3wother], lightbox := none } =
      Except.ok "https://tds-images.thedailystar.net/big_a.jpg" ∧
     ImageExtractor.extract_image_url
        { heroGallery := none, pictures := [C3wother, C3wbig], lightbox := none } =
      Except.ok "https://tds-images.thedailystar.net/big_a.jpg") ∧
    ImageExtractor.sortCandidates [(0, C3wbig), (0, C3wother)] =
      [(0, C3wbig), (0, C3wother)] := by
  constructor
  · exact C3_amended.1 C3wbig C3wother none C3wel
      "https://tds-images.thedailystar.net/big_a.jpg" rfl rfl rfl rfl rfl rfl rfl
  · have h := C3_amended.2 [(0, C3wbig), (0, C3wother)]
      (by
        intro y hy
        rcases List.mem_cons.mp hy with h | h
        · rw [h]; exact Or.inl rfl
        · rw [List.mem_singleton.mp h]; exact Or.inl rfl)
    simpa using h

/-! Claim C1. -/

/-- C1: the claim fails on the primary hero-gallery short-circuit, which
performs no domain-exclusion check: a document whose hero-gallery `data-src`
is a site-logo URL has that URL returned verbatim. -/
theorem C1_counterexample :
    ImageExtractor.extract_image_url C1doc =
      Except.ok "https://tds-images-bn.thedailystar.net/logo.jpg" ∧
    PyStr.pyIn ImageExtractor.logoDomain
      (PyStr.lowerStr "https://tds-images-bn.thedailystar.net/logo.jpg") = true :=
  ⟨rfl, rfl⟩

/-- C1 (amended): whenever the primary hero-gallery short-circuit does not
fire, any string the extractor returns is either empty or free of the
site-logo domain (the candidate scan and the lightbox fallback both pass
through the final domain filter); the primary path itself carries no such
check. -/
theorem C1_amended (doc : ImageExtractor.Doc) (s : String)
    (hp : ImageExtractor.primaryResult doc = none)
    (h : ImageExtractor.extract_image_url doc = Except.ok s) :
    s = "" ∨ PyStr.pyIn ImageExtractor.logoDomain (PyStr.lowerStr s) = false := by
  have hcase : ∀ e : ImageExtractor.ImgSourceEl,
      (match ImageExtractor.find_image_with_bs4 doc.pictures with
        | some x => some x
        | none => ImageExtractor.lightboxElem doc.lightbox) = some e →
      s = "" ∨ PyStr.pyIn ImageExtractor.logoDomain (PyStr.lowerStr s) = false := by
    intro e hel
    cases hu : ImageExtractor.extract_url_from_element e with
    | error m =>
      have hx : ImageExtractor.extract_image_url doc = Except.error m := by
        unfold ImageExtractor.extract_image_url
        rw [hp, hel]
        simp only [hu, Bind.bind, Except.bind]
      rw [hx] at h
      cases h
    | ok url =>
      cases hc : (!(url == "") &&
          PyStr.pyIn ImageExtractor.logoDomain (PyStr.lowerStr url)) with
      | true =>
        have hx : ImageExtractor.extract_image_url doc = Except.ok "" := by
          unfold ImageExtractor.extract_image_url
          rw [hp, hel]
          simp only [hu, Bind.bind, Except.bind, hc, if_true]
          rfl
        rw [hx] at h
        injection h with h1
        exact Or.inl h1.symm
      | false =>
        have hx : ImageExtractor.extract_image_url doc = Except.ok url := by
          unfold ImageExtractor.extract_image_url
          rw [hp, hel]
          simp only [hu, Bind.bind, Except.bind, hc, Bool.false_eq_true, if_false]
          rfl
        rw [hx] at h
        injection h with h1
        subst h1
        cases hemp : (url == "") with
        | true => exact Or.inl (by simpa using hemp)
        | false =>
          right
          rw [hemp] at hc
          simpa using hc
  cases hel : (match ImageExtractor.find_image_with_bs4 doc.pictures with
    | some x => some x
    | none => ImageExtractor.lightboxElem doc.lightbox) with
  | none =>
    left
    have hx : ImageExtractor.extract_image_url doc = Except.ok "" := by
      unfold ImageExtractor.extract_image_url
      rw [hp, hel]
    rw [hx] at h
    injection h with h1
    exact h1.symm
  | some e => exact hcase e hel

/-- Witness for C1 (amended): a document with a single valid content-image
candidate and no hero gallery. -/
theorem C1_amended_witness :
    "https://tds-images.thedailystar.net/photo.jpg" = "" ∨
      PyStr.pyIn ImageExtractor.logoDomain
        (PyStr.lowerStr "https://tds-images.thedailystar.net/photo.jpg") = false :=
  C1_amended C1wdoc "https://tds-images.thedailystar.net/photo.jpg" rfl rfl

/-! Claim C5. -/

/-- C5: the claim "fetch_article_details never raises" fails: on a network
error the function raises a wrapped exception instead of returning a
record. -/
theorem C5_counterexample :
    Scraper.fetch_article_details (Scraper.FetchResult.netErr "timeout") =
      Except.error "Failed to fetch article: timeout" :=
  rfl

/-- C5 (amended): `fetch_article_details` raises a wrapped
`Failed to fetch article: ...` exception on any network failure; the
never-raise recovery the claim describes lives in the orchestrator, whose
per-item handler emits the record with title and url preserved, empty
structured fields, and the error note in the body-text field. -/
theorem C5_amended :
    (∀ msg, Scraper.fetch_article_details (Scraper.FetchResult.netErr msg) =
      Except.error ("Failed to fetch article: " ++ msg)) ∧
    (∀ env (it : Scraper.NewsItem) msg,
      env it.url = Scraper.FetchResult.netErr msg →
      Scraper.processItem env it =
        { title := it.title, url := it.url, heading := "", date_time := "",
          image := "",
          news_body_text_full :=
            "Error fetching article: " ++ ("Failed to fetch article: " ++ msg) }) := by
  constructor
  · intro msg; rfl
  · intro env it msg hmsg
    unfold Scraper.processItem
    rw [hmsg]
    rfl

/-- Witness for C5 (amended) at a concrete failing environment. -/
theorem C5_amended_witness :
    Scraper.processItem C5env C5item =
      { title := C5item.title, url := C5item.url, heading := "", date_time := "",
        image := "",
        news_body_text_full :=
          "Error fetching article: " ++ ("Failed to fetch article: " ++ "timeout") } :=
  C5_amended.2 C5env C5item "timeout" rfl

/-! Claim C6. -/

/-- C6: one bad item never sinks the batch: the output list has one row per
(truncated) input item, each row is the per-item processing of its input item,
and a failing item's row keeps its title and url, empties the other structured
fields, and puts a non-empty error placeholder in the body-text field. -/
theorem C6_partial_failure :
    (∀ env (items : List Scraper.NewsItem) (limit : Option Nat) (i : Nat),
      (Scraper.fetch_all_articles_with_details env items limit).length =
        (Scraper.pyTruncate limit items).length ∧
      (Scraper.fetch_all_articles_with_details env items limit)[i]? =
        ((Scraper.pyTruncate limit items)[i]?).map (Scraper.processItem env)) ∧
    (∀ env (it : Scraper.NewsItem) e,
      Scraper.fetch_article_details (env it.url) = Except.error e →
      Scraper.processItem env it =
        { title := it.title, url := it.url, heading := "", date_time := "",
          image := "", news_body_text_full := "Error fetching article: " ++ e } ∧
      ("Error fetching article: " ++ e) ≠ "") := by
  constructor
  · intro env items limit i
    unfold Scraper.fetch_all_articles_with_details
    exact ⟨List.length_map _ _, List.getElem?_map _ _ _⟩
  · intro env it e he
    constructor
    · unfold Scraper.processItem
      rw [he]
    · intro hcon
      have hlen := congrArg String.length hcon
      rw [String.length_append] at hlen
      simp at hlen
      exact absurd hlen.1 (by decide)

/-- Witness for C6 at a concrete failing item. -/
theorem C6_witness :
    Scraper.processItem C6env C6item =
      { title := C6item.title, url := C6item.url, heading := "", date_time := "",
        image := "",
        news_body_text_full :=
          "Error fetching article: " ++ "Failed to fetch article: refused" } ∧
    ("Error fetching article: " ++ "Failed to fetch article: refused") ≠ "" :=
  C6_partial_failure.2 C6env C6item "Failed to fetch article: refused" rfl

/-! Claim C8. -/

/-- C8: the claim fails at `limit = 0`: Python's `if limit:` treats 0 as
falsy, so a zero limit performs no truncation — one item survives where
`min 0 1 = 0` items should. -/
theorem C8_counterexample :
    (Scraper.fetch_all_articles_with_details C8env [C8item] (some 0)).length = 1 ∧
    min 0 [C8item].length = 0 :=
  ⟨rfl, rfl⟩

/-- C8 (amended): for every positive limit `k` the returned list has length
`min k n`; an omitted limit and a zero limit both leave the discovered list
untruncated. -/
theorem C8_amended :
    (∀ (k : Nat) env (items : List Scraper.NewsItem), 1 ≤ k →
      (Scraper.fetch_all_articles_with_details env items (some k)).length =
        min k items.length) ∧
    (∀ env (items : List Scraper.NewsItem),
      Scraper.fetch_all_articles_with_details env items none =
        items.map (Scraper.processItem env)) ∧
    (∀ env (items : List Scraper.NewsItem),
      Scraper.fetch_all_articles_with_details env items (some 0) =
        items.map (Scraper.processItem env)) := by
  refine ⟨?_, fun env items => rfl, fun env items => rfl⟩
  intro k env items hk
  have ht : Scraper.pyTruncate (some k) items = items.take k := by
    unfold Scraper.pyTruncate
    simp [Nat.one_le_iff_ne_zero.mp hk]
  unfold Scraper.fetch_all_articles_with_details
  rw [ht]
  simp [List.length_take]

/-- Witness for C8 (amended) at `k = 2` over a one-item list. -/
theorem C8_amended_witness :
    (Scraper.fetch_all_articles_with_details C8env [C8item] (some 2)).length =
      min 2 [C8item].length :=
  C8_amended.1 2 C8env [C8item] (by decide)

/-! Claim C10. -/

/-- C10: the REST-variant timestamp formatter maps non-numeric input to the
empty string, maps `1700000000000` to exactly `"2023-11-14T22:13:20Z"`, and
every numeric input renders as a UTC ISO-8601 string with a trailing `Z`. -/
theorem C10_timestamp_formatter :
    ProthomAlo.format_publish_time none = "" ∧
    ProthomAlo.format_publish_time (some 1700000000000) = "2023-11-14T22:13:20Z" ∧
    (∀ n : Int, ∃ s : String,
      ProthomAlo.format_publish_time (some n) = s ++ "Z") :=
  ⟨rfl, rfl, fun n => ⟨ProthomAlo.isoUTCBody (n * 1000), rfl⟩⟩

/-! Character-prefix lemmas for the resolver rules. -/

/-- A list with a nonempty prefix rules out any prefix with a different
head. -/
theorem prefixOf_head_ne {l t s : List Char} {a b : Char}
    (h : (a :: t).isPrefixOf l = true) (hne : (b == a) = false) :
    (b :: s).isPrefixOf l = false := by
  cases l with
  | nil => simp [List.isPrefixOf] at h
  | cons c cs =>
    simp only [List.isPrefixOf, Bool.and_eq_true, beq_iff_eq] at h
    have hbc : (b == c) = false := by rw [← h.1]; exact hne
    simp [List.isPrefixOf, hbc]

/-- A two-character prefix yields its one-character prefix. -/
theorem prefixOf_two_one {l : List Char} {a b : Char}
    (h : [a, b].isPrefixOf l = true) : [a].isPrefixOf l = true := by
  cases l with
  | nil => simp [List.isPrefixOf] at h
  | cons c cs =>
    simp only [List.isPrefixOf, Bool.and_eq_true, beq_iff_eq] at h
    simp [List.isPrefixOf, h.1]

/-- A string with a nonempty character prefix is nonempty. -/
theorem pyStartsWith_char_ne_empty (u : String) (a : Char) (t : List Char)
    (h : (a :: t).isPrefixOf u.data = true) : (u == "") = false := by
  cases hu : u.data with
  | nil =>
    rw [hu] at h
    simp [List.isPrefixOf] at h
  | cons c cs =>
    have hne : u ≠ "" := by
      intro he
      rw [he] at hu
      exact absurd hu (by simp)
    simpa using hne

/-- A `//`-prefixed string is `/`-prefixed. -/
theorem pyStartsWith_two_slash_one (u : String)
    (h : PyStr.pyStartsWith u "//" = true) : PyStr.pyStartsWith u "/" = true :=
  prefixOf_two_one (a := '/') (b := '/') h

/-- A `/`-prefixed string is not `http`-prefixed. -/
theorem slash_not_http (u : String) (h : PyStr.pyStartsWith u "/" = true) :
    PyStr.pyStartsWith u "http" = false :=
  prefixOf_head_ne (a := '/') (t := []) (b := 'h') (s := ['t', 't', 'p']) h (by decide)

/-! Claim C9. -/

/-- C9: the URL resolver applies its rules in order — scheme-prefixed input is
returned unchanged, protocol-relative input gains `https:`, root-relative
input joins the base's origin, any other nonempty input joins as a relative
segment, and empty input yields empty output — and the two concrete examples
of the claim hold. -/
theorem C9_url_resolver :
    (∀ base u : String, PyStr.pyStartsWith u "http" = true →
      PyStr.resolveUrl base u = u) ∧
    (∀ base u : String, PyStr.pyStartsWith u "//" = true →
      PyStr.resolveUrl base u = "https:" ++ u) ∧
    (∀ base u : String, PyStr.pyStartsWith u "/" = true →
      PyStr.pyStartsWith u "//" = false →
      PyStr.pyStartsWith u "http" = false →
      PyStr.resolveUrl base u = PyStr.urljoinRoot base u) ∧
    (∀ base u : String, (u == "") = false →
      PyStr.pyStartsWith u "http" = false → PyStr.pyStartsWith u "/" = false →
      PyStr.resolveUrl base u = PyStr.urljoinRoot base ("/" ++ u)) ∧
    (∀ base : String, PyStr.resolveUrl base "" = "") ∧
    PyStr.resolveUrl "https://example.com" "/x/y.jpg" = "https://example.com/x/y.jpg" ∧
    PyStr.resolveUrl "https://example.com" "//cdn.example.com/z.jpg" =
      "https://cdn.example.com/z.jpg" := by
  refine ⟨?_, ?_, ?_, ?_, fun base => rfl, rfl, rfl⟩
  · intro base u h
    have hne : (u == "") = false :=
      pyStartsWith_char_ne_empty u 'h' ['t', 't', 'p'] h
    simp [PyStr.resolveUrl, hne, h]
  · intro base u h
    have h1 : PyStr.pyStartsWith u "/" = true := pyStartsWith_two_slash_one u h
    have hh : PyStr.pyStartsWith u "http" = false := slash_not_http u h1
    have hne : (u == "") = false := pyStartsWith_char_ne_empty u '/' [] h1
    simp [PyStr.resolveUrl, hne, hh, h]
  · intro base u h3 h4 hh
    have hne : (u == "") = false := pyStartsWith_char_ne_empty u '/' [] h3
    simp [PyStr.resolveUrl, hne, hh, h3, h4]
  · intro base u hne hh hs
    have h5 : PyStr.pyStartsWith u "//" = false := by
      cases hc : PyStr.pyStartsWith u "//" with
      | false => rfl
      | true =>
        have := pyStartsWith_two_slash_one u hc
        rw [hs] at this
        cases this
    simp [PyStr.resolveUrl, hne, hh, hs, h5]

/-- Witness for C9 at concrete absolute and relative inputs. -/
theorem C9_witness :
    PyStr.resolveUrl "https://example.com" "http://a/b" = "http://a/b" ∧
    PyStr.resolveUrl "https://base.org" "img/p.jpg" =
      PyStr.urljoinRoot "https://base.org" ("/" ++ "img/p.jpg") :=
  ⟨C9_url_resolver.1 "https://example.com" "http://a/b" rfl,
   C9_url_resolver.2.2.2.1 "https://base.org" "img/p.jpg" rfl rfl rfl⟩

/-! Discovery-invariant lemmas. -/

/-- Appending a string with nonempty data keeps the result nonempty. -/
theorem append_ne_empty_right (a b : String) (hb : b.data ≠ []) : a ++ b ≠ "" := by
  intro h
  have hd : (a ++ b).data = [] := by rw [h]
  have hd2 : a.data ++ b.data = [] := hd
  exact hb (List.append_eq_nil.mp hd2).2

/-- The daily-star href join never produces an empty URL from a nonempty
href. -/
theorem urljoin_ne_empty (base rel : String) (hrel : rel.data ≠ []) :
    PyStr.urljoin base rel ≠ "" := by
  unfold PyStr.urljoin
  split
  · intro he
    apply hrel
    rw [he]
  · split
    · intro he
      have : ("https:" ++ rel).data = [] := by rw [he]
      exact hrel (List.append_eq_nil.mp this).2
    · split
      · exact append_ne_empty_right (PyStr.originOf base) rel hrel
      · apply append_ne_empty_right
        intro hd
        have : ("/" : String).data ++ rel.data = [] := hd
        simp at this

/-- Full invariant of the `fetch_news_headings` fold: every emitted url is
recorded in the seen set, urls are pairwise distinct, and titles and urls are
nonempty. -/
theorem headingStep_fold_invariant (links : List Scraper.Link) :
    ∀ (seen : List String) (items : List Scraper.NewsItem),
      (∀ it ∈ items, it.url ∈ seen) →
      List.Pairwise (fun a b : Scraper.NewsItem => a.url ≠ b.url) items →
      (∀ it ∈ items, it.title ≠ "" ∧ it.url ≠ "") →
      (∀ it ∈ (links.foldl Scraper.headingStep (seen, items)).2,
        it.url ∈ (links.foldl Scraper.headingStep (seen, items)).1) ∧
      List.Pairwise (fun a b : Scraper.NewsItem => a.url ≠ b.url)
        (links.foldl Scraper.headingStep (seen, items)).2 ∧
      (∀ it ∈ (links.foldl Scraper.headingStep (seen, items)).2,
        it.title ≠ "" ∧ it.url ≠ "") := by
  induction links with
  | nil => intro seen items h1 h2 h3; exact ⟨h1, h2, h3⟩
  | cons l ls ih =>
    intro seen items h1 h2 h3
    rw [List.foldl_cons]
    have hstep : Scraper.headingStep (seen, items) l = (seen, items) ∨
        ∃ full, Scraper.headingStep (seen, items) l =
            (full :: seen, items ++ [⟨l.text, full⟩]) ∧
          full ∉ seen ∧ full ≠ "" ∧ l.text ≠ "" := by
      unfold Scraper.headingStep
      cases hhref : l.href with
      | none =>
        dsimp only
        rw [if_pos (by simp)]
        exact Or.inl rfl
      | some hr =>
        dsimp only
        split
        · exact Or.inl rfl
        · next hcond =>
          split
          · exact Or.inl rfl
          · next hcontains =>
            refine Or.inr ⟨_, rfl, ?_, ?_, ?_⟩
            · intro hmem
              apply hcontains
              simpa using hmem
            · apply urljoin_ne_empty
              intro hd
              apply hcond
              have hhr : hr = "" := congrArg String.mk hd
              rw [hhr]
              simp
            · intro he
              apply hcond
              rw [he]
              simp
    rcases hstep with hsame | ⟨full, hnew, hnotseen, hfullne, htitlene⟩
    · rw [hsame]
      exact ih seen items h1 h2 h3
    · rw [hnew]
      apply ih
      · intro it hit
        rcases List.mem_append.mp hit with hmem | hmem
        · exact List.mem_cons_of_mem full (h1 it hmem)
        · rw [List.mem_singleton.mp hmem]
          exact List.mem_cons_self full seen
      · rw [List.pairwise_append]
        refine ⟨h2, List.pairwise_singleton _ _, ?_⟩
        intro a ha b hb
        rw [List.mem_singleton.mp hb]
        intro hurl
        apply hnotseen
        have hurl2 : a.url = full := hurl
        rw [← hurl2]
        exact h1 a ha
      · intro it hit
        rcases List.mem_append.mp hit with hmem | hmem
        · exact h3 it hmem
        · rw [List.mem_singleton.mp hmem]
          exact ⟨htitlene, hfullne⟩

/-! Claim C7. -/

/-- C7: the claim fails for the hybrid (Ittefaq) adapter: its parser neither
deduplicates resolved URLs — two identical listing divs yield two items with
the same link — nor drops empty-URL items — a div with a title but no href
yields an item with an empty link. -/
theorem C7_counterexample :
    (Ittefaq.parse_html [C7dupDiv, C7dupDiv]).map (fun it => it.link) =
      ["https://www.ittefaq.com.bd/x", "https://www.ittefaq.com.bd/x"] ∧
    (Ittefaq.parse_html [C7emptyLinkDiv]).map (fun it => (it.title, it.link)) =
      [("S", "")] :=
  ⟨rfl, rfl⟩

/-- C7 (amended): The Daily Star discoverer satisfies the claim — no two
items share a resolved URL, and no empty-title or empty-URL item appears.
The Ittefaq parser guarantees only nonempty titles: it performs no URL
deduplication and an item's link may be empty. -/
theorem C7_amended :
    (∀ links : List Scraper.Link,
      List.Pairwise (fun a b : Scraper.NewsItem => a.url ≠ b.url)
        (Scraper.fetch_news_headings links) ∧
      ∀ it ∈ Scraper.fetch_news_headings links, it.title ≠ "" ∧ it.url ≠ "") ∧
    (∀ (divs : List Ittefaq.ItDiv) (it : Ittefaq.IttefaqNewsItem),
      it ∈ Ittefaq.parse_html divs → it.title ≠ "") := by
  constructor
  · intro links
    have h := headingStep_fold_invariant links [] []
      (by intro it hit; cases hit)
      List.Pairwise.nil
      (by intro it hit; cases hit)
    exact ⟨h.2.1, h.2.2⟩
  · intro divs it hmem
    unfold Ittefaq.parse_html at hmem
    rw [List.mem_filterMap] at hmem
    obtain ⟨div, _, heq⟩ := hmem
    simp only [] at heq
    split at heq
    · cases heq
    · next hcond =>
      injection heq with heq
      rw [← heq]
      simpa using hcond

/-- Witness for C7 (amended): the concrete duplicate-href link list, and the
concrete title of the parsed Ittefaq item. -/
theorem C7_amended_witness :
    List.Pairwise (fun a b : Scraper.NewsItem => a.url ≠ b.url)
      (Scraper.fetch_news_headings C7wlinks) ∧
    "T" ≠ "" := by
  constructor
  · exact (C7_amended.1 C7wlinks).1
  · exact C7_amended.2 [C7dupDiv]
      ⟨"T", "https://www.ittefaq.com.bd/x", "", "", "", "", ""⟩
      (List.mem_singleton.mpr rfl)
